import Mathlib

/-!
Shallow embedding of the upload-scheduling / pipeline-state core of the
`shorts` repository (`src/publishing/scheduler.py`,
`src/storage/repositories/task_repo.py`, `src/storage/repositories/video_repo.py`,
`src/discovery/youtube_monitor.py`), together with theorems settling the
frozen claims about it.

Modelling conventions:
* Timestamps are integers (seconds).  The queue file stores timestamps as
  ISO-8601 strings produced by `datetime.isoformat()`; for datetimes rendered
  in that fixed format, lexicographic string order coincides with
  chronological order, so an `Int` with its usual order is a faithful model
  of both the parsed-comparison sites (`datetime.fromisoformat(..) > now`)
  and the raw-string sort key.
* A JSON value that is `null` (Python `None`) is `Option.none`; a key that the
  code reads with `dict.get` is `Option`-typed with the source's default.
* Python values that can raise at runtime are modelled in `Except Unit`.
* `metadata` payloads are opaque to every claim; they are carried as `String`.
-/

namespace Shorts

/-- One entry of the upload queue, as created by `UploadScheduler.add_to_queue`
and mutated by `update_entry_status`.  `scheduledTime`, `startedAt`,
`completedAt` are absent-or-ISO-timestamp; `add_to_queue` always writes the
`scheduled_time` key (possibly `null`), while `started_at` / `completed_at`
only appear once `update_entry_status` sets them. -/
structure QueueEntry where
  id : String
  videoFilePath : String
  metadata : String
  platform : String
  scheduledTime : Option Int
  priority : Int
  status : String
  addedAt : Int
  attempts : Nat
  lastError : Option String
  startedAt : Option Int
  completedAt : Option Int
deriving DecidableEq

/-- The readiness test of `get_ready_uploads` (scheduler.py lines 199-213):
an entry is kept iff its status is `queued`, the platform filter (when truthy:
Python treats `None` and `""` as no filter) matches, and the scheduled time is
absent or not in the future. -/
def isReady (now : Int) (platform : Option String) (e : QueueEntry) : Bool :=
  e.status == "queued" &&
  (match platform with
   | none => true
   | some p => p == "" || e.platform == p) &&
  (match e.scheduledTime with
   | none => true
   | some t => !(t > now))

/-- The sort key `lambda x: (-x['priority'], x.get('scheduled_time', ''))` of
`get_ready_uploads`.  Every entry carries the `scheduled_time` key (written by
`add_to_queue`), so the `''` default never fires and the key's second
component is the stored value: `None` or an ISO string (modelled `Option Int`). -/
def sortKey (e : QueueEntry) : Int × Option Int :=
  (-e.priority, e.scheduledTime)

/-- Python `<` on the sort-key tuples.  Tuple comparison first tests the
components with `==` and compares the first unequal pair with `<`.  Integers
compare normally; for the second component, `None == None` holds (so two
fully equal tuples yield `False`), but `None < str` / `str < None` raises
`TypeError`, modelled as `Except.error`. -/
def pyKeyLt (a b : Int × Option Int) : Except Unit Bool :=
  if a.1 = b.1 then
    match a.2, b.2 with
    | none, none => .ok false
    | some x, some y => .ok (decide (x < y))
    | none, some _ => .error ()
    | some _, none => .error ()
  else
    .ok (decide (a.1 < b.1))

/-- Stable insertion with a fallible comparator: `x` (earlier in the input)
moves past exactly those `y` with `y < x`, so it lands before any equal
element, as Python's stable `list.sort` guarantees. -/
def insertByE {α : Type} (lt : α → α → Except Unit Bool) (x : α) :
    List α → Except Unit (List α)
  | [] => .ok [x]
  | y :: ys =>
    match lt y x with
    | .error e => .error e
    | .ok true =>
      match insertByE lt x ys with
      | .error e => .error e
      | .ok r => .ok (y :: r)
    | .ok false => .ok (x :: y :: ys)

/-- Stable sort with a fallible comparator.  On inputs whose keys are pairwise
comparable the comparator is a strict weak order, and every stable sort
(Python's timsort included) returns the same list; on a two-element list with
incomparable keys both this sort and timsort must compare the offending pair
and raise. -/
def sortByE {α : Type} (lt : α → α → Except Unit Bool) :
    List α → Except Unit (List α)
  | [] => .ok []
  | x :: xs =>
    match sortByE lt xs with
    | .error e => .error e
    | .ok r => insertByE lt x r

/-- `UploadScheduler.get_ready_uploads` (scheduler.py lines 180-222): filter
the queue for ready entries, sort by `(-priority, scheduled_time)`, and apply
the truthy `limit` (Python `if limit:` ignores both `None` and `0`). -/
def get_ready_uploads (queue : List QueueEntry) (now : Int)
    (limit : Option Nat) (platform : Option String) :
    Except Unit (List QueueEntry) :=
  let ready := queue.filter (isReady now platform)
  match sortByE (fun a b => pyKeyLt (sortKey a) (sortKey b)) ready with
  | .error e => .error e
  | .ok sorted =>
    .ok (match limit with
         | none => sorted
         | some l => if l = 0 then sorted else sorted.take l)

/-- `UploadScheduler.remove_from_queue` (scheduler.py lines 257-266):
`queue = [e for e in queue if e['id'] != entry_id]`. -/
def remove_from_queue (queue : List QueueEntry) (entryId : String) :
    List QueueEntry :=
  queue.filter (fun e => e.id != entryId)

/-- `UploadScheduler.cleanup_completed` (scheduler.py lines 268-290).  The
cutoff is `utcnow() - timedelta(days=days)`; an entry is kept iff its status
is not `completed` or its `completed_at` (defaulting, via `dict.get`, to a
fresh `utcnow()` for entries lacking the key) is strictly after the cutoff.
The code reads `utcnow()` once for the cutoff (`nowCut`) and re-reads it for
each entry missing `completed_at`; the later reads are modelled by a single
instant `nowFb` with `nowCut ≤ nowFb`. -/
def cleanup_completed (queue : List QueueEntry) (nowCut nowFb : Int)
    (days : Int) : List QueueEntry :=
  let cutoff := nowCut - days * 86400
  queue.filter (fun e =>
    e.status != "completed" || decide (e.completedAt.getD nowFb > cutoff))

/-- A UTC wall-clock instant at second resolution, the inputs of
`datetime.utcnow().strftime('%Y%m%d%H%M%S')`. -/
structure DateTime where
  year : Nat
  month : Nat
  day : Nat
  hour : Nat
  minute : Nat
  second : Nat
deriving DecidableEq

/-- The component bounds under which `strftime('%Y%m%d%H%M%S')` renders each
field with its full zero-padded width (always true of `datetime.utcnow()`,
whose fields are calendar-valid and whose year has four digits). -/
def DateTime.Valid (t : DateTime) : Prop :=
  t.year < 10000 ∧ t.month < 100 ∧ t.day < 100 ∧ t.hour < 100 ∧
    t.minute < 100 ∧ t.second < 100

/-- One decimal digit character, as printed by `%d`-style zero padding. -/
def digitChar (n : Nat) : Char := Char.ofNat (48 + n % 10)

/-- Zero-padded two-digit rendering (`%m`, `%d`, `%H`, `%M`, `%S`). -/
def pad2 (n : Nat) : List Char := [digitChar (n / 10), digitChar n]

/-- Zero-padded four-digit rendering (`%Y` for four-digit years). -/
def pad4 (n : Nat) : List Char :=
  [digitChar (n / 1000), digitChar (n / 100), digitChar (n / 10), digitChar n]

/-- `datetime.strftime('%Y%m%d%H%M%S')`: the 14-character timestamp used in
queue-entry ids. -/
def strftimeYmdHMS (t : DateTime) : String :=
  String.mk (pad4 t.year ++ pad2 t.month ++ pad2 t.day ++ pad2 t.hour ++
    pad2 t.minute ++ pad2 t.second)

/-- The id generated by `add_to_queue` (scheduler.py line 71):
`f"{platform}_{datetime.utcnow().strftime('%Y%m%d%H%M%S')}"`. -/
def entry_id (platform : String) (t : DateTime) : String :=
  platform ++ "_" ++ strftimeYmdHMS t

/-- `UploadScheduler.add_to_queue` (scheduler.py lines 48-90).  `nowDT` is the
`utcnow()` instant used by the id's `strftime`, `nowEpoch` the same instant as
the epoch-seconds value written to `added_at` by `isoformat()`.  Returns the
grown queue and the entry id. -/
def add_to_queue (queue : List QueueEntry) (videoFilePath : String)
    (metadata : String) (platform : String) (scheduledTime : Option Int)
    (priority : Int) (nowDT : DateTime) (nowEpoch : Int) :
    List QueueEntry × String :=
  let eid := entry_id platform nowDT
  (queue ++ [{ id := eid, videoFilePath := videoFilePath,
               metadata := metadata, platform := platform,
               scheduledTime := scheduledTime, priority := priority,
               status := "queued", addedAt := nowEpoch, attempts := 0,
               lastError := none, startedAt := none, completedAt := none }],
   eid)

/-- `TaskStatus` (models.py). -/
inductive TaskStatus where
  | pending | running | completed | failed | cancelled
deriving DecidableEq

/-- `Task` row (models.py).  The `result` JSON payload is opaque to every
claim and carried as a `String`. -/
structure Task where
  id : Nat
  videoUrlId : Option Nat
  taskType : String
  status : TaskStatus
  createdAt : Int
  startedAt : Option Int
  completedAt : Option Int
  progress : Rat
  result : Option String
  errorMessage : Option String
  retryCount : Nat
deriving DecidableEq

/-- Python truthiness of an optional string/payload argument: `None` and the
empty value are falsy (`if error_message:` / `if result:`). -/
def truthy : Option String → Bool
  | none => false
  | some s => !s.isEmpty

/-- The per-row mutation of `TaskRepository.update_task_status`
(task_repo.py lines 140-154): set status; set `started_at` on `RUNNING` only
when unset; set `completed_at` on the three terminal statuses; store the
error message / result payload when truthy. -/
def taskApplyUpdate (t : Task) (status : TaskStatus)
    (errorMessage : Option String) (result : Option String) (now : Int) :
    Task :=
  let t := { t with status := status }
  let t := if status = TaskStatus.running ∧ t.startedAt = none then
             { t with startedAt := some now } else t
  let t := if status = TaskStatus.completed ∨ status = TaskStatus.failed ∨
              status = TaskStatus.cancelled then
             { t with completedAt := some now } else t
  let t := if truthy errorMessage then { t with errorMessage := errorMessage }
           else t
  if truthy result then { t with result := result } else t

/-- `TaskRepository.update_task_status` (task_repo.py lines 118-158):
`session.get` by primary key; when absent, no mutation happens and `None` is
returned; when present, the row is mutated and returned.  The store is a list
of rows keyed by `id`. -/
def update_task_status (store : List Task) (taskId : Nat)
    (status : TaskStatus) (errorMessage : Option String)
    (result : Option String) (now : Int) : List Task × Option Task :=
  match store.find? (fun t => t.id == taskId) with
  | none => (store, none)
  | some t =>
    let t' := taskApplyUpdate t status errorMessage result now
    (store.map (fun u => if u.id == taskId then t' else u), some t')

/-- `VideoStatus` (models.py). -/
inductive VideoStatus where
  | pending | analyzing | analyzed | generating | generated
  | processing | processed | ready | published | failed | skipped
deriving DecidableEq

/-- `VideoURL` row (models.py).  The `analysis_data` JSON payload is opaque
and carried as a `String`. -/
structure VideoURL where
  id : Nat
  url : String
  videoId : String
  title : Option String
  channel : Option String
  views : Option Int
  likes : Option Int
  duration : Option Int
  publishedAt : Option Int
  status : VideoStatus
  discoveredAt : Int
  updatedAt : Int
  analysisData : Option String
  errorMessage : Option String
  retryCount : Nat
deriving DecidableEq

/-- `VideoRepository.update_status` (video_repo.py lines 118-148): look up by
primary key; when absent, return `None` without mutating; when present, set
the status, refresh `updated_at`, and store the error message when truthy. -/
def update_status (store : List VideoURL) (videoUrlId : Nat)
    (status : VideoStatus) (errorMessage : Option String) (now : Int) :
    List VideoURL × Option VideoURL :=
  match store.find? (fun v => v.id == videoUrlId) with
  | none => (store, none)
  | some v =>
    let v₁ := { v with status := status, updatedAt := now }
    let v' := if truthy errorMessage then { v₁ with errorMessage := errorMessage }
              else v₁
    (store.map (fun u => if u.id == videoUrlId then v' else u), some v')

/-- `Platform` (models.py). -/
inductive Platform where
  | youtube | tiktok | instagram
deriving DecidableEq

/-- `PublishRecord` row (models.py), restricted to the columns
`check_daily_limit` queries.  `published_at` is nullable; a SQL comparison
against NULL is not satisfied, so a `none` value never matches the day
window. -/
structure PublishRecord where
  id : Nat
  platform : Platform
  publishedAt : Option Int
  isPublished : Bool
deriving DecidableEq

/-- `date.replace(hour=0, minute=0, second=0, microsecond=0)` on an
epoch-seconds UTC instant: floor to the containing UTC day. -/
def startOfDay (date : Int) : Int := date - date % 86400

/-- The first argument the code passes to `and_(...)` in `check_daily_limit`
(scheduler.py line 159).  The Python conditional expression binds looser than
`==`, so `PublishRecord.platform == Platform.YOUTUBE if platform == "youtube"
else Platform.TIKTOK` parses as `(PublishRecord.platform ==
Platform.YOUTUBE) if platform == "youtube" else Platform.TIKTOK`: for
`platform == "youtube"` it is the intended column comparison, but for every
other platform it is the bare enum member `Platform.TIKTOK`, which is not a
SQL boolean expression — SQLAlchemy rejects it with `ArgumentError` when the
`select(...).where(and_(...))` is built, modelled as `Except.error`. -/
def platformClause (platform : String) :
    Except Unit (PublishRecord → Bool) :=
  if platform == "youtube" then
    .ok (fun r => r.platform == Platform.youtube)
  else
    .error ()

/-- The dictionary returned by `check_daily_limit`. -/
structure LimitInfo where
  limit : Int
  used : Int
  remaining : Int
  limitReached : Bool
deriving DecidableEq

/-- `UploadScheduler.check_daily_limit` (scheduler.py lines 130-178) over the
`publish_records` table: count rows matching the platform clause with
`published_at` in `[startOfDay date, startOfDay date + 1 day)` and
`is_published` true; `remaining = max(0, daily_limit - used)`;
`limit_reached = (remaining == 0)`.  `dailyLimit` is the configured
`publishing.schedule.daily_limit` (default 3). -/
def check_daily_limit (records : List PublishRecord) (platform : String)
    (date : Int) (dailyLimit : Int) : Except Unit LimitInfo :=
  match platformClause platform with
  | .error e => .error e
  | .ok clause =>
    let dayStart := startOfDay date
    let dayEnd := dayStart + 86400
    let used : Int :=
      (records.filter (fun r =>
        clause r &&
        (match r.publishedAt with
         | none => false
         | some p => dayStart ≤ p && p < dayEnd) &&
        r.isPublished)).length
    let remaining := max 0 (dailyLimit - used)
    .ok { limit := dailyLimit, used := used, remaining := remaining,
          limitReached := remaining == 0 }

/-- One raw item of the discovery feed, restricted to the fields
`filter_videos` reads.  `durationSeconds` is the value of
`parse_duration(video['contentDetails']['duration'])` (0 when unparsable);
`categoryId` is `snippet.get('categoryId')`; `publishedAt` is the parsed
`snippet['publishedAt']` in epoch seconds; `viewCount` is
`int(statistics.get('viewCount', 0))`. -/
structure RawVideo where
  id : String
  categoryId : Option String
  durationSeconds : Rat
  publishedAt : Int
  viewCount : Nat
deriving DecidableEq

/-- `YouTubeMonitor.is_short` (youtube_monitor.py lines 102-115):
`0 < seconds <= max_duration`. -/
def is_short (v : RawVideo) (maxDuration : Rat) : Bool :=
  decide (0 < v.durationSeconds) && decide (v.durationSeconds ≤ maxDuration)

/-- `hours_since_published` in `filter_videos`:
`(now - published_at).total_seconds() / 3600`. -/
def hoursSince (now : Int) (v : RawVideo) : Rat :=
  ((now - v.publishedAt : Int) : Rat) / 3600

/-- The acceptance test of `YouTubeMonitor.filter_videos`
(youtube_monitor.py lines 145-174), in the source's order: not the Music
category (`'10'`); `is_short` with its default 60-second ceiling; age strictly
between 0 and `max_age_hours`; views-per-hour not below `min_vph`. -/
def viralKeep (now : Int) (maxAgeHours : Rat) (minVph : Rat)
    (v : RawVideo) : Bool :=
  !(v.categoryId == some "10") &&
  is_short v 60 &&
  (let hours := hoursSince now v
   !(hours ≥ maxAgeHours || hours ≤ 0) &&
   (let vph := if hours > 0 then (v.viewCount : Rat) / hours else 0
    !(vph < minVph)))

/-- `YouTubeMonitor.filter_videos` (youtube_monitor.py lines 117-201),
restricted to its acceptance decision: the kept raw items, in input order.
(The source additionally projects each kept item to an output record —
title, channel, truncated integer VPH, URL — which no claim concerns.) -/
def filter_videos (videos : List RawVideo) (now : Int)
    (maxAgeHours : Rat) (minVph : Rat) : List RawVideo :=
  videos.filter (viralKeep now maxAgeHours minVph)

/-- A queue entry with the fixed payload fields no claim depends on. -/
def sampleEntry (i : String) (prio : Int) (sched : Option Int)
    (status : String) (completed : Option Int) : QueueEntry :=
  { id := i, videoFilePath := "video.mp4", metadata := "meta",
    platform := "youtube", scheduledTime := sched, priority := prio,
    status := status, addedAt := 0, attempts := 0, lastError := none,
    startedAt := none, completedAt := completed }

theorem insertByE_ok_mem {α : Type} {lt : α → α → Except Unit Bool}
    {x a : α} {ys r : List α} (h : insertByE lt x ys = .ok r) (ha : a ∈ r) :
    a = x ∨ a ∈ ys := by
  induction ys generalizing r with
  | nil =>
    simp only [insertByE, Except.ok.injEq] at h
    subst h
    simp only [List.mem_singleton] at ha
    exact Or.inl ha
  | cons y ys ih =>
    rw [insertByE] at h
    cases hlt : lt y x with
    | error e => rw [hlt] at h; simp at h
    | ok b =>
      rw [hlt] at h
      cases b with
      | false =>
        simp only [Except.ok.injEq] at h
        subst h
        rcases List.mem_cons.1 ha with h1 | h2
        · exact Or.inl h1
        · exact Or.inr h2
      | true =>
        cases hrec : insertByE lt x ys with
        | error e => rw [hrec] at h; simp at h
        | ok r' =>
          rw [hrec] at h
          simp only [Except.ok.injEq] at h
          subst h
          rcases List.mem_cons.1 ha with h1 | h2
          · exact Or.inr (by simp [h1])
          · rcases ih hrec h2 with h3 | h4
            · exact Or.inl h3
            · exact Or.inr (List.mem_cons_of_mem _ h4)

theorem sortByE_ok_mem {α : Type} {lt : α → α → Except Unit Bool}
    {a : α} {xs r : List α} (h : sortByE lt xs = .ok r) (ha : a ∈ r) :
    a ∈ xs := by
  induction xs generalizing r with
  | nil =>
    simp only [sortByE, Except.ok.injEq] at h
    subst h
    simp at ha
  | cons x xs ih =>
    rw [sortByE] at h
    cases hrec : sortByE lt xs with
    | error e => rw [hrec] at h; simp at h
    | ok r' =>
      rw [hrec] at h
      rcases insertByE_ok_mem h ha with h1 | h2
      · simp [h1]
      · exact List.mem_cons_of_mem _ (ih hrec h2)

/-- Claim C1, code evaluated at the failing input.  Two ready `queued`
entries share priority 5; one is unscheduled (`scheduled_time` stored as
JSON `null`), the other scheduled in the past.  The sort key of the first is
`(-5, None)` and of the second `(-5, "…")`; Python's tuple comparison reaches
`None < str` and raises `TypeError`, so `get_ready_uploads` crashes instead
of placing the unscheduled job first.  (The `''` default in
`x.get('scheduled_time', '')` never fires, because `add_to_queue` always
writes the key, with value `None` when no time is scheduled.) -/
theorem get_ready_uploads_mixed_pair_raises :
    get_ready_uploads
      [sampleEntry "youtube_a" 5 none "queued" none,
       sampleEntry "youtube_b" 5 (some 100) "queued" none]
      1000 none none = Except.error () := by
  rfl

/-- Claim C10: `remove_from_queue` keeps exactly the entries whose id
differs from the given one (all matches are removed, not just the first),
preserves the order of the survivors, and is an error-free no-op when no
entry carries the id. -/
theorem remove_from_queue_spec (queue : List QueueEntry) (entryId : String) :
    (∀ e, e ∈ remove_from_queue queue entryId ↔ e ∈ queue ∧ e.id ≠ entryId) ∧
    (remove_from_queue queue entryId).Sublist queue ∧
    ((∀ e ∈ queue, e.id ≠ entryId) → remove_from_queue queue entryId = queue) := by
  refine ⟨fun e => ?_, List.filter_sublist _, fun h => ?_⟩
  · simp [remove_from_queue, List.mem_filter, bne_iff_ne]
  · exact List.filter_eq_self.2 fun a ha => by simpa [bne_iff_ne] using h a ha

/-- Witness for the C10 theorem at a concrete queue without the removed id. -/
theorem remove_from_queue_spec_witness :
    remove_from_queue [sampleEntry "b" 5 none "queued" none] "a" =
      [sampleEntry "b" 5 none "queued" none] :=
  (remove_from_queue_spec _ _).2.2 (by decide)

/-- Claim C5 counterexample: a `completed` entry whose completion timestamp
is exactly `now - days` (not strictly older than the cutoff) is nevertheless
removed — the code keeps an entry only when `completed_at > cutoff`, so the
boundary case falls on the removal side, against the claim's strict
"older than". -/
theorem cleanup_completed_boundary_cex :
    cleanup_completed [sampleEntry "c" 5 none "completed" (some (9 * 86400))]
      (10 * 86400) (10 * 86400) 1 = [] ∧
    ¬ ((9 * 86400 : Int) < 10 * 86400 - 1 * 86400) := by
  exact ⟨by decide, by decide⟩

/-- Claim C5 as amended: `cleanup_completed` keeps exactly the entries that
are not `completed`-and-at-or-beyond-the-cutoff (removal uses `≤ cutoff`,
i.e. "older than or exactly at `now - days`"); survivors keep their order;
non-`completed` entries are always kept regardless of age; a `completed`
entry lacking a completion timestamp is read as the current instant and
kept. -/
theorem cleanup_completed_spec (queue : List QueueEntry)
    (nowCut nowFb days : Int) (h1 : nowCut ≤ nowFb) (h2 : 1 ≤ days) :
    (∀ e, e ∈ cleanup_completed queue nowCut nowFb days ↔
      e ∈ queue ∧ (e.status = "completed" →
        nowCut - days * 86400 < e.completedAt.getD nowFb)) ∧
    (cleanup_completed queue nowCut nowFb days).Sublist queue ∧
    (∀ e ∈ queue, e.status ≠ "completed" →
      e ∈ cleanup_completed queue nowCut nowFb days) ∧
    (∀ e ∈ queue, e.status = "completed" → e.completedAt = none →
      e ∈ cleanup_completed queue nowCut nowFb days) := by
  have hmem : ∀ e, e ∈ cleanup_completed queue nowCut nowFb days ↔
      e ∈ queue ∧ (e.status = "completed" →
        nowCut - days * 86400 < e.completedAt.getD nowFb) := by
    intro e
    simp only [cleanup_completed, List.mem_filter, Bool.or_eq_true,
      bne_iff_ne, decide_eq_true_iff]
    constructor
    · rintro ⟨hq, hne | hlt⟩
      · exact ⟨hq, fun hc => absurd hc hne⟩
      · exact ⟨hq, fun _ => hlt⟩
    · rintro ⟨hq, himp⟩
      refine ⟨hq, ?_⟩
      by_cases hc : e.status = "completed"
      · exact Or.inr (himp hc)
      · exact Or.inl hc
  refine ⟨hmem, List.filter_sublist _, fun e he hne => ?_,
    fun e he _ hnone => ?_⟩
  · exact (hmem e).2 ⟨he, fun hcc => absurd hcc hne⟩
  · refine (hmem e).2 ⟨he, fun _ => ?_⟩
    rw [hnone, Option.getD_none]
    omega

/-- Witness for the C5 theorem: a `queued` entry survives a 1-day sweep. -/
theorem cleanup_completed_spec_witness :
    sampleEntry "q" 5 none "queued" none ∈
      cleanup_completed [sampleEntry "q" 5 none "queued" none] 0 0 1 :=
  (cleanup_completed_spec _ 0 0 1 (by decide) (by decide)).2.2.1 _ (by decide)
    (by decide)

/-- Claim C6, code evaluated at the failing input.  For any platform other
than `"youtube"`, the conditional-expression precedence bug makes the code
hand the bare enum member `Platform.TIKTOK` to `and_(...)` instead of a
platform comparison, so building the query fails; the call never returns the
tiktok counts the claim describes. -/
theorem check_daily_limit_tiktok_raises :
    check_daily_limit
      [{ id := 1, platform := Platform.tiktok, publishedAt := some 43200,
         isPublished := true }] "tiktok" 43200 3 = Except.error () := by
  rfl

/-- A stored task row in its freshly created state (`create_task`). -/
def sampleTask : Task :=
  { id := 1, videoUrlId := none, taskType := "analysis",
    status := TaskStatus.pending, createdAt := 0, startedAt := none,
    completedAt := none, progress := 0, result := none, errorMessage := none,
    retryCount := 0 }

/-- A stored video row in its freshly discovered state (`add_url`). -/
def sampleVideo : VideoURL :=
  { id := 1, url := "https://www.youtube.com/shorts/x", videoId := "x",
    title := none, channel := none, views := none, likes := none,
    duration := none, publishedAt := none, status := VideoStatus.pending,
    discoveredAt := 0, updatedAt := 0, analysisData := none,
    errorMessage := none, retryCount := 0 }

/-- Claim C2 counterexample: updating a stored task to `FAILED` with the
non-empty error message `"boom"` stores the message but leaves the retry
counter at 0 — neither `update_task_status` nor `update_status` touches
`retry_count` (a separate `increment_retry_count` operation does). -/
theorem update_task_status_retry_cex :
    ((update_task_status [sampleTask] 1 TaskStatus.failed (some "boom") none
        5).2.map Task.errorMessage = some (some "boom")) ∧
    ((update_task_status [sampleTask] 1 TaskStatus.failed (some "boom") none
        5).2.map Task.retryCount = some 0) := by
  exact ⟨by decide, by decide⟩

/-- Claim C2 as amended: for a stored Item (`update_status`) and a stored
Task (`update_task_status`), supplying a non-empty error message stores it in
the entity's `error_message` field and leaves the retry counter unchanged;
the counter is incremented only by the separate `increment_retry_count`
operation. -/
theorem update_status_message_stored_retry_unchanged
    (tasks : List Task) (videos : List VideoURL) (tid vid : Nat)
    (ts : TaskStatus) (vs : VideoStatus) (msg : String) (res : Option String)
    (now : Int) (hmsg : msg ≠ "")
    (t : Task) (ht : tasks.find? (fun u => u.id == tid) = some t)
    (v : VideoURL) (hv : videos.find? (fun u => u.id == vid) = some v) :
    (∃ t', (update_task_status tasks tid ts (some msg) res now).2 = some t' ∧
      t'.errorMessage = some msg ∧ t'.retryCount = t.retryCount) ∧
    (∃ v', (update_status videos vid vs (some msg) now).2 = some v' ∧
      v'.errorMessage = some msg ∧ v'.retryCount = v.retryCount) := by
  have htruthy : truthy (some msg) = true := by
    simp only [truthy, Bool.not_eq_true']
    cases h : msg.isEmpty with
    | true => exact absurd ((String.isEmpty_iff msg).1 h) hmsg
    | false => rfl
  constructor
  · refine ⟨taskApplyUpdate t ts (some msg) res now, ?_, ?_, ?_⟩
    · rw [update_task_status, ht]
    · simp only [taskApplyUpdate, htruthy, if_true]
      split <;> split <;> split <;> simp
    · simp only [taskApplyUpdate, htruthy, if_true]
      split <;> split <;> split <;> simp
  · refine ⟨_, by rw [update_status, hv], ?_, ?_⟩
    · simp only [htruthy, if_true]
    · simp only [htruthy, if_true]

/-- Witness for the C2 theorem at a concrete one-row store each. -/
theorem update_status_message_stored_retry_unchanged_witness :
    (∃ t', (update_task_status [sampleTask] 1 TaskStatus.failed (some "boom")
       none 5).2 = some t' ∧ t'.errorMessage = some "boom" ∧
       t'.retryCount = sampleTask.retryCount) ∧
    (∃ v', (update_status [sampleVideo] 1 VideoStatus.failed (some "boom")
       5).2 = some v' ∧ v'.errorMessage = some "boom" ∧
       v'.retryCount = sampleVideo.retryCount) :=
  update_status_message_stored_retry_unchanged [sampleTask] [sampleVideo] 1 1
    TaskStatus.failed VideoStatus.failed "boom" none 5 (by decide)
    sampleTask (by decide) sampleVideo (by decide)

/-- Claim C3 counterexample: a status transition on an id absent from the
store raises nothing — it returns the store unchanged together with `None`
(there is no `NotFoundError` anywhere in the codebase's exception taxonomy);
the claimed surfaced failure does not exist. -/
theorem update_status_absent_id_cex :
    update_task_status [] 1 TaskStatus.failed none none 0 = ([], none) ∧
    update_status ([] : List VideoURL) 1 VideoStatus.failed none 0 =
      ([], none) := by
  exact ⟨by decide, by decide⟩

/-- Claim C3 as amended: a status transition on an Item id or Task id absent
from the store performs no update and signals the absence by returning
`None` as the updated entity (a silent no-op at the store level, detectable
by the caller only through the `None` return value; no error is raised). -/
theorem update_status_absent_id_noop
    (tasks : List Task) (videos : List VideoURL) (tid vid : Nat)
    (ts : TaskStatus) (vs : VideoStatus) (em res : Option String) (now : Int)
    (htid : ∀ t ∈ tasks, t.id ≠ tid) (hvid : ∀ v ∈ videos, v.id ≠ vid) :
    update_task_status tasks tid ts em res now = (tasks, none) ∧
    update_status videos vid vs em now = (videos, none) := by
  constructor
  · rw [update_task_status, List.find?_eq_none.2 fun t ht => by
      simpa using htid t ht]
  · rw [update_status, List.find?_eq_none.2 fun v hv => by
      simpa using hvid v hv]

/-- Witness for the C3 theorem at concrete one-row stores missing id 2. -/
theorem update_status_absent_id_noop_witness :
    update_task_status [sampleTask] 2 TaskStatus.failed none none 0 =
      ([sampleTask], none) ∧
    update_status [sampleVideo] 2 VideoStatus.failed none 0 =
      ([sampleVideo], none) :=
  update_status_absent_id_noop [sampleTask] [sampleVideo] 2 2
    TaskStatus.failed VideoStatus.failed none none 0 (by decide) (by decide)

/-- Claim C9: transitioning a stored task into `RUNNING` sets `started_at`
only when it is unset — the updated row's `started_at` is the old value when
one exists and the current instant otherwise — and every transition into
`COMPLETED`, `FAILED` or `CANCELLED` sets `completed_at` to the current
instant. -/
theorem update_task_status_timestamps
    (store : List Task) (taskId : Nat) (status : TaskStatus)
    (em res : Option String) (now : Int)
    (t : Task) (ht : store.find? (fun u => u.id == taskId) = some t) :
    ∃ t', (update_task_status store taskId status em res now).2 = some t' ∧
      (status = TaskStatus.running →
        t'.startedAt = some (t.startedAt.getD now)) ∧
      ((status = TaskStatus.completed ∨ status = TaskStatus.failed ∨
        status = TaskStatus.cancelled) → t'.completedAt = some now) := by
  refine ⟨taskApplyUpdate t status em res now, by rw [update_task_status, ht],
    fun hrun => ?_, fun hterm => ?_⟩
  · subst hrun
    simp only [taskApplyUpdate]
    cases hs : t.startedAt with
    | none => split <;> split <;> split <;> simp_all
    | some s => split <;> split <;> split <;> simp_all
  · simp only [taskApplyUpdate, if_pos hterm]
    have : ¬ (status = TaskStatus.running ∧
        ({ t with status := status } : Task).startedAt = none) := by
      rintro ⟨h, -⟩
      rcases hterm with h' | h' | h' <;> rw [h] at h' <;> exact absurd h' (by decide)
    rw [if_neg this]
    split <;> split <;> simp

/-- Witness for the C9 theorem: a fresh task (no start time) transitioned
into `RUNNING` at instant 7 gets `started_at = 7`. -/
theorem update_task_status_timestamps_witness :
    ∃ t', (update_task_status [sampleTask] 1 TaskStatus.running none none
      7).2 = some t' ∧ t'.startedAt = some 7 := by
  obtain ⟨t', h1, h2, -⟩ := update_task_status_timestamps [sampleTask] 1
    TaskStatus.running none none 7 sampleTask (by decide)
  exact ⟨t', h1, by simpa using h2 rfl⟩

/-- Claim C4: every entry returned by `get_ready_uploads` has status
`queued`, has no scheduled time or one that is not in the future, and
matches the platform filter whenever a non-empty one is given (Python treats
an empty filter string like no filter). -/
theorem get_ready_uploads_sound (queue : List QueueEntry) (now : Int)
    (limit : Option Nat) (platform : Option String) (l : List QueueEntry)
    (hok : get_ready_uploads queue now limit platform = .ok l) :
    ∀ e ∈ l, e.status = "queued" ∧
      (∀ t, e.scheduledTime = some t → t ≤ now) ∧
      (∀ p, platform = some p → p ≠ "" → e.platform = p) := by
  intro e he
  rw [get_ready_uploads] at hok
  cases hs : sortByE (fun a b => pyKeyLt (sortKey a) (sortKey b))
      (queue.filter (isReady now platform)) with
  | error err => rw [hs] at hok; simp at hok
  | ok sorted =>
    rw [hs] at hok
    simp only [Except.ok.injEq] at hok
    subst hok
    have hes : e ∈ sorted := by
      cases limit with
      | none => exact he
      | some l' =>
        have he' : e ∈ if l' = 0 then sorted else sorted.take l' := he
        by_cases h0 : l' = 0
        · simpa [h0] using he'
        · rw [if_neg h0] at he'
          exact List.mem_of_mem_take he'
    have hef : e ∈ queue.filter (isReady now platform) :=
      sortByE_ok_mem hs hes
    have hready : isReady now platform e = true := (List.mem_filter.1 hef).2
    simp only [isReady, Bool.and_eq_true, beq_iff_eq] at hready
    obtain ⟨⟨hstat, hplat⟩, hsched⟩ := hready
    refine ⟨hstat, fun t hts => ?_, fun p hp hpne => ?_⟩
    · rw [hts] at hsched
      simp only [Bool.not_eq_true', decide_eq_false_iff_not, not_lt]
        at hsched
      exact hsched
    · subst hp
      simp only [Bool.or_eq_true, beq_iff_eq] at hplat
      rcases hplat with h | h
      · exact absurd h hpne
      · exact h

/-- Witness for the C4 theorem at a concrete one-entry queue with a past
scheduled time and a `youtube` platform filter. -/
theorem get_ready_uploads_sound_witness :
    (sampleEntry "a" 5 (some 10) "queued" none).status = "queued" ∧
    (∀ t, (sampleEntry "a" 5 (some 10) "queued" none).scheduledTime =
      some t → t ≤ 100) ∧
    (∀ p, (some "youtube" : Option String) = some p → p ≠ "" →
      (sampleEntry "a" 5 (some 10) "queued" none).platform = p) :=
  get_ready_uploads_sound [sampleEntry "a" 5 (some 10) "queued" none] 100
    none (some "youtube") [sampleEntry "a" 5 (some 10) "queued" none] rfl
    (sampleEntry "a" 5 (some 10) "queued" none) (by decide)

/-- Claim C7 counterexample: two distinct enqueue calls (different files,
metadata, scheduled times and priorities) made in the same UTC second for
the same platform receive the SAME id — the id is just
`platform_YYYYmmddHHMMSS` and no counter disambiguates collisions. -/
theorem add_to_queue_same_second_collision_cex :
    (add_to_queue [] "a.mp4" "m1" "youtube" none 5
      ⟨2024, 5, 1, 12, 0, 0⟩ 100).2 =
    (add_to_queue (add_to_queue [] "a.mp4" "m1" "youtube" none 5
        ⟨2024, 5, 1, 12, 0, 0⟩ 100).1
      "b.mp4" "m2" "youtube" (some 3600) 7 ⟨2024, 5, 1, 12, 0, 0⟩ 100).2 := by
  rfl

theorem string_data_append (s t : String) : (s ++ t).data = s.data ++ t.data := by
  cases s
  cases t
  rfl

theorem entry_id_data (p : String) (t : DateTime) :
    (entry_id p t).data = p.data ++ '_' ::
      (pad4 t.year ++ pad2 t.month ++ pad2 t.day ++ pad2 t.hour ++
       pad2 t.minute ++ pad2 t.second) := by
  rw [entry_id, strftimeYmdHMS, string_data_append, string_data_append,
    List.append_assoc]
  rfl

theorem digitChar_bounded_inj :
    ∀ a < 10, ∀ b < 10, digitChar a = digitChar b → a = b := by
  decide

theorem digitChar_mod (n : Nat) : digitChar n = digitChar (n % 10) := by
  unfold digitChar
  congr 1
  omega

theorem digitChar_inj_mod {a b : Nat} (h : digitChar a = digitChar b) :
    a % 10 = b % 10 := by
  refine digitChar_bounded_inj (a % 10) ?_ (b % 10) ?_ ?_
  · omega
  · omega
  · rw [← digitChar_mod, ← digitChar_mod]
    exact h

theorem pad2_inj {a b : Nat} (ha : a < 100) (hb : b < 100)
    (h : pad2 a = pad2 b) : a = b := by
  simp only [pad2, List.cons.injEq, and_true] at h
  have h1 := digitChar_inj_mod h.1
  have h2 := digitChar_inj_mod h.2
  omega

theorem pad4_inj {a b : Nat} (ha : a < 10000) (hb : b < 10000)
    (h : pad4 a = pad4 b) : a = b := by
  simp only [pad4, List.cons.injEq, and_true] at h
  have h1 := digitChar_inj_mod h.1
  have h2 := digitChar_inj_mod h.2.1
  have h3 := digitChar_inj_mod h.2.2.1
  have h4 := digitChar_inj_mod h.2.2.2
  omega

theorem entry_id_inj {p₁ p₂ : String} {t₁ t₂ : DateTime}
    (h₁ : t₁.Valid) (h₂ : t₂.Valid) (h : entry_id p₁ t₁ = entry_id p₂ t₂) :
    p₁ = p₂ ∧ t₁ = t₂ := by
  obtain ⟨y₁, mo₁, d₁, hr₁, mi₁, s₁⟩ := t₁
  obtain ⟨y₂, mo₂, d₂, hr₂, mi₂, s₂⟩ := t₂
  obtain ⟨hy₁, hmo₁, hd₁, hhr₁, hmi₁, hs₁⟩ := h₁
  obtain ⟨hy₂, hmo₂, hd₂, hhr₂, hmi₂, hs₂⟩ := h₂
  have hd := congrArg String.data h
  rw [entry_id_data, entry_id_data] at hd
  obtain ⟨hp, hsuf⟩ := List.append_inj' hd rfl
  injection hsuf with _ hsuf
  obtain ⟨hsuf, hs⟩ := List.append_inj' hsuf rfl
  obtain ⟨hsuf, hmi⟩ := List.append_inj' hsuf rfl
  obtain ⟨hsuf, hhr⟩ := List.append_inj' hsuf rfl
  obtain ⟨hsuf, hdd⟩ := List.append_inj' hsuf rfl
  obtain ⟨hy, hmo⟩ := List.append_inj' hsuf rfl
  refine ⟨String.ext hp, ?_⟩
  have ey := pad4_inj hy₁ hy₂ hy
  have emo := pad2_inj hmo₁ hmo₂ hmo
  have ed := pad2_inj hd₁ hd₂ hdd
  have ehr := pad2_inj hhr₁ hhr₂ hhr
  have emi := pad2_inj hmi₁ hmi₂ hmi
  have es := pad2_inj hs₁ hs₂ hs
  simp_all

/-- Claim C7 as amended: the generated id is a function of exactly the
platform and the UTC second of the call, so two enqueues differing in
platform or in second receive different ids, while two enqueues sharing
both collide (see the counterexample); uniqueness holds only across
distinct (platform, second) pairs. -/
theorem entry_id_distinct (p₁ p₂ : String) (t₁ t₂ : DateTime)
    (h₁ : t₁.Valid) (h₂ : t₂.Valid) (hne : p₁ ≠ p₂ ∨ t₁ ≠ t₂) :
    entry_id p₁ t₁ ≠ entry_id p₂ t₂ := by
  intro h
  rcases hne with hp | ht
  · exact hp (entry_id_inj h₁ h₂ h).1
  · exact ht (entry_id_inj h₁ h₂ h).2

/-- Witness for the C7 theorem: calls one second apart give different ids. -/
theorem entry_id_distinct_witness :
    entry_id "youtube" ⟨2024, 5, 1, 12, 0, 0⟩ ≠
      entry_id "youtube" ⟨2024, 5, 1, 12, 0, 1⟩ :=
  entry_id_distinct "youtube" "youtube" ⟨2024, 5, 1, 12, 0, 0⟩
    ⟨2024, 5, 1, 12, 0, 1⟩ (by unfold DateTime.Valid; decide)
    (by unfold DateTime.Valid; decide) (Or.inr (by decide))

/-- A raw discovery item: non-music category, 2 hours old at `now = 7200`,
20000 views, with the given duration. -/
def sampleRaw (dur : Rat) : RawVideo :=
  { id := "v", categoryId := some "23", durationSeconds := dur,
    publishedAt := 0, viewCount := 20000 }

/-- Claim C8 counterexample: an item of duration exactly 60 s (category not
music, 2 h old, VPH 10000 meeting the floor) is ACCEPTED by the filter —
`is_short` tests `0 < seconds <= max_duration` — whereas the claim requires
the duration to be strictly below the 60 s ceiling. -/
theorem viralKeep_iff (now : Int) (maxAgeHours minVph : Rat) (v : RawVideo) :
    viralKeep now maxAgeHours minVph v = true ↔
      v.categoryId ≠ some "10" ∧ 0 < v.durationSeconds ∧
      v.durationSeconds ≤ 60 ∧ 0 < hoursSince now v ∧
      hoursSince now v < maxAgeHours ∧
      minVph ≤ (v.viewCount : Rat) / hoursSince now v := by
  unfold viralKeep is_short
  constructor
  · intro h
    simp only [Bool.and_eq_true] at h
    obtain ⟨⟨hcat, hd1, hd2⟩, hage, hvph⟩ := h
    rw [Bool.not_eq_true', Bool.or_eq_false_iff] at hage
    obtain ⟨hage1, hage2⟩ := hage
    have h5 : 0 < hoursSince now v := not_le.mp (of_decide_eq_false hage2)
    have h4 : hoursSince now v < maxAgeHours :=
      not_le.mp (of_decide_eq_false hage1)
    rw [Bool.not_eq_true'] at hvph hcat
    have h6 : minVph ≤ (v.viewCount : Rat) / hoursSince now v := by
      have hv' := of_decide_eq_false hvph
      rw [if_pos h5] at hv'
      exact not_lt.mp hv'
    exact ⟨beq_eq_false_iff_ne.mp hcat, of_decide_eq_true hd1,
      of_decide_eq_true hd2, h5, h4, h6⟩
  · rintro ⟨h1, h2, h3, h5, h4, h6⟩
    simp only [Bool.and_eq_true]
    refine ⟨⟨?_, ?_, ?_⟩, ?_, ?_⟩
    · rw [Bool.not_eq_true']
      exact beq_eq_false_iff_ne.mpr h1
    · exact decide_eq_true h2
    · exact decide_eq_true h3
    · rw [Bool.not_eq_true', Bool.or_eq_false_iff]
      exact ⟨decide_eq_false (not_le.mpr h4), decide_eq_false (not_le.mpr h5)⟩
    · rw [Bool.not_eq_true']
      refine decide_eq_false ?_
      rw [if_pos h5]
      exact not_lt.mpr h6

/-- Claim C8 counterexample: an item of duration exactly 60 s (category not
music, 2 h old, VPH 10000 meeting the floor) is ACCEPTED by the filter —
`is_short` tests `0 < seconds <= max_duration` — whereas the claim requires
the duration to be strictly below the 60 s ceiling. -/
theorem filter_videos_60s_cex :
    filter_videos [sampleRaw 60] 7200 48 10000 = [sampleRaw 60] ∧
    ¬ ((sampleRaw 60).durationSeconds < 60) := by
  constructor
  · have hk : viralKeep 7200 48 10000 (sampleRaw 60) = true := by
      rw [viralKeep_iff]
      refine ⟨by decide, by norm_num [sampleRaw], by norm_num [sampleRaw],
        ?_, ?_, ?_⟩ <;> norm_num [sampleRaw, hoursSince]
    simp [filter_videos, hk]
  · norm_num [sampleRaw]

/-- Claim C8 as amended: the filter accepts a raw item iff its category is
not the excluded music category `'10'`, its duration lies in the half-open
interval `(0, 60]` (exactly 60 s is accepted; only durations above the
ceiling are rejected), its age is strictly between 0 and the max-age, and
its views-per-hour is at least the configured floor. -/
theorem filter_videos_spec (videos : List RawVideo) (now : Int)
    (maxAgeHours minVph : Rat) (v : RawVideo) :
    v ∈ filter_videos videos now maxAgeHours minVph ↔
      v ∈ videos ∧ v.categoryId ≠ some "10" ∧
      0 < v.durationSeconds ∧ v.durationSeconds ≤ 60 ∧
      0 < hoursSince now v ∧ hoursSince now v < maxAgeHours ∧
      minVph ≤ (v.viewCount : Rat) / hoursSince now v := by
  simp only [filter_videos, List.mem_filter, viralKeep_iff]

end Shorts
